import Mathlib

/-
Verification of the journalai backend's call/conversation correlation
heuristic and one-time-code login flow, as a shallow embedding.

Python values reachable from the third-party API responses are modelled by
the inductive type `PyObj`: `None`, strings, datetimes (as integer UTC
seconds), dicts (association lists with string keys), lists, and attribute
objects (Pydantic-style models with an optional `model_dump()` result).
Machine I/O (the ElevenLabs client, `datetime.fromisoformat`) is passed in
as explicit function parameters.
-/

set_option autoImplicit false

/-- Model of a Python value as seen by the correlation heuristic: `pyNone`
is `None`, `pyStr` a `str`, `pyTime` a `datetime` (UTC seconds), `pyDict` a
`dict` with string keys, `pyList` a `list`, and `pyAttrs attrs dump` an
object whose public non-callable attributes are `attrs` and whose
`model_dump()` (or legacy `dict()`) result is `dump` when present. -/
inductive PyObj : Type where
  | pyNone : PyObj
  | pyStr : String → PyObj
  | pyTime : Int → PyObj
  | pyDict : List (String × PyObj) → PyObj
  | pyList : List PyObj → PyObj
  | pyAttrs : List (String × PyObj) → Option PyObj → PyObj

/-- Python `str.strip()` over character lists: drop whitespace from both
ends. -/
def trimWs (s : List Char) : List Char :=
  ((s.dropWhile Char.isWhitespace).reverse.dropWhile Char.isWhitespace).reverse

/-- Python `str.strip()` on strings. -/
def pyStrip (s : String) : String := String.mk (trimWs s.data)

/-- ASCII lower-casing of one character (Python `str.lower()` on the
ASCII identifiers compared by the heuristic). -/
def charLower (c : Char) : Char :=
  if 65 ≤ c.toNat && c.toNat ≤ 90 then Char.ofNat (c.toNat + 32) else c

/-- Python `str.lower()` on strings. -/
def strLower (s : String) : String := String.mk (s.data.map charLower)

/-- The single-quote character, used by Python `repr` of strings. -/
def pyQ : String := String.singleton (Char.ofNat 39)

mutual

/-- Python `repr` of a modelled value (container rendering used by `str`
on dicts and lists). -/
def pyRepr : PyObj → String
  | .pyNone => "None"
  | .pyStr s => pyQ ++ s ++ pyQ
  | .pyTime t => "datetime(" ++ toString t ++ ")"
  | .pyDict kvs => "\x7b" ++ pyReprKVs kvs ++ "\x7d"
  | .pyList xs => "[" ++ pyReprList xs ++ "]"
  | .pyAttrs _ _ => "<object>"
termination_by structural obj => obj

/-- Comma-separated rendering of dict entries. -/
def pyReprKVs : List (String × PyObj) → String
  | [] => ""
  | [(k, v)] => pyQ ++ k ++ pyQ ++ ": " ++ pyRepr v
  | (k, v) :: rest => pyQ ++ k ++ pyQ ++ ": " ++ pyRepr v ++ ", " ++ pyReprKVs rest
termination_by structural kvs => kvs

/-- Comma-separated rendering of list items. -/
def pyReprList : List PyObj → String
  | [] => ""
  | [v] => pyRepr v
  | v :: rest => pyRepr v ++ ", " ++ pyReprList rest
termination_by structural xs => xs

end

/-- Python `str()` of a modelled value: a string renders as itself, other
values as their `repr`. -/
def pyToStr : PyObj → String
  | .pyStr s => s
  | v => pyRepr v

/-- Python truthiness of a modelled value: `None`, the empty string and
empty containers are falsy; datetimes and attribute objects are truthy. -/
def pyTruthy : PyObj → Bool
  | .pyNone => false
  | .pyStr s => !s.isEmpty
  | .pyTime _ => true
  | .pyDict kvs => !kvs.isEmpty
  | .pyList xs => !xs.isEmpty
  | .pyAttrs _ _ => true

/-- Truthiness of an optional value (`none` plays Python `None` produced by
a lookup that found nothing). -/
def pyTruthyOpt : Option PyObj → Bool
  | none => false
  | some v => pyTruthy v

/-- Python `a or b` on modelled values. -/
def pyOrV (a b : PyObj) : PyObj := if pyTruthy a then a else b

/-- Attribute lookup on a modelled object (`getattr` without default);
only attribute objects carry attributes, mirroring `hasattr` on plain
dicts, lists and strings being false for these names. -/
def pyGetattr : PyObj → String → Option PyObj
  | .pyAttrs attrs _, name => (attrs.find? (fun kv => kv.1 == name)).map (fun kv => kv.2)
  | _, _ => none

/-- Attribute lookup with Python default `None` (`getattr(o, a, None)`). -/
def pyGetattrD (o : PyObj) (a : String) : PyObj := (pyGetattr o a).getD .pyNone

/-- The `model_dump()` / `dict()` conversion result of an object, when the
object has such a method. -/
def pyModelDump : PyObj → Option PyObj
  | .pyAttrs _ dump => dump
  | _ => none

/-- Python `dict.get(key)` on the association-list model of a dict. -/
def dictGet (kvs : List (String × PyObj)) (key : String) : Option PyObj :=
  (kvs.find? (fun kv => kv.1 == key)).map (fun kv => kv.2)

/-- Path join used for recursive-search value paths:
`f"\x7bpath\x7d.\x7bkey\x7d" if path else key`. -/
def joinPath (path key : String) : String :=
  if path == "" then key else path ++ "." ++ key

/-- Fuel-indexed body of `search_for_call_sid_recursive` from
`fetch_elevenlabs_from_twilio_call.py`.  The fuel is the remaining depth
budget `max_depth + 1 - current_depth`; every recursive call of the Python
function increases `current_depth` by one, so it corresponds to one unit of
fuel.  Recursion is on the fuel alone, which is why the Python function
terminates on arbitrarily-shaped (even cyclic) inputs.  Dict iteration
checks the key itself before recursing into the value; attribute iteration
models the `dir()` loop over public non-callable attributes; an object with
`model_dump` is searched again on its dumped form at depth + 1. -/
def searchSidGo : Nat → PyObj → String → String → Option PyObj × Option String
  | 0, _, _, _ => (none, none)
  | fuel + 1, obj, target, path =>
    match obj with
    | .pyNone => (none, none)
    | _ =>
      if pyStrip (pyToStr obj) == target then (some obj, some path)
      else
        match obj with
        | .pyDict kvs =>
          match kvs.findSome? (fun kv =>
              if pyStrip kv.1 == target then
                some (some (.pyStr kv.1), some (path ++ "." ++ kv.1))
              else
                let r := searchSidGo fuel kv.2 target (joinPath path kv.1)
                if pyTruthyOpt r.1 then some r else none) with
          | some r => r
          | none => (none, none)
        | .pyList xs =>
          match xs.enum.findSome? (fun ix =>
              let r := searchSidGo fuel ix.2 target
                (if path == "" then "[" ++ toString ix.1 ++ "]"
                 else path ++ "[" ++ toString ix.1 ++ "]")
              if pyTruthyOpt r.1 then some r else none) with
          | some r => r
          | none => (none, none)
        | .pyAttrs attrs dump =>
          match attrs.findSome? (fun kv =>
              let r := searchSidGo fuel kv.2 target (joinPath path kv.1)
              if pyTruthyOpt r.1 then some r else none) with
          | some r => r
          | none =>
            match dump with
            | some d => searchSidGo fuel d target path
            | none => (none, none)
        | _ => (none, none)

/-- Embedding of `search_for_call_sid_recursive(obj, target_sid, path,
max_depth, current_depth)`.  The guard `current_depth > max_depth` is
exactly a fuel of zero. -/
def search_for_call_sid_recursive (obj : PyObj) (target : String)
    (path : String) (maxDepth : Nat) (currentDepth : Nat) :
    Option PyObj × Option String :=
  searchSidGo (maxDepth + 1 - currentDepth) obj target path

/-- Priority key names probed (case-insensitively) by the dict branch of
`find_phone_recursive` in `src/elevenlabs_client.py`. -/
def phone_priority_keys : List String :=
  ["phone_number", "caller_phone_number", "phone", "caller", "from", "to",
   "from_phone", "to_phone", "caller_number", "caller_id"]

/-- Attribute names probed by the object branch of `find_phone_recursive`. -/
def phone_attr_keys : List String :=
  ["phone_number", "caller_phone_number", "phone", "caller", "from", "to"]

/-- Python `len(s.replace('+','').replace('-','').replace(' ','').replace('(','').replace(')','')) >= 10`,
the first phone-shape test of `find_phone_recursive`. -/
def phoneSepStripped (s : String) : List Char :=
  s.data.filter (fun c => !(c == '+' || c == '-' || c == ' ' || c == '(' || c == ')'))

/-- Python `re.sub(r'[^\d+]', '', s)`: keep only decimal digits and `+`. -/
def phoneCleaned (s : String) : List Char :=
  s.data.filter (fun c => c.isDigit || c == '+')

/-- Fuel-indexed body of `find_phone_recursive` from
`src/elevenlabs_client.py` (fuel is `max_depth + 1 - depth`).  A string
passing both phone-shape length tests is returned as-is; a dict is probed
first at the priority keys (case-insensitive), then across all values; an
object is probed at six fixed attribute names.  Lists fall through to
`None` because the Python function has no list branch. -/
def findPhoneGo : Nat → PyObj → Option PyObj
  | 0, _ => none
  | fuel + 1, obj =>
    match obj with
    | .pyNone => none
    | _ =>
      let strHit : Option PyObj :=
        match obj with
        | .pyStr s =>
          if 10 ≤ (phoneSepStripped s).length && 10 ≤ (phoneCleaned s).length then
            some (.pyStr s)
          else none
        | _ => none
      match strHit with
      | some r => some r
      | none =>
        let dictHit : Option PyObj :=
          match obj with
          | .pyDict kvs =>
            let priorityHit := phone_priority_keys.findSome? (fun key =>
              match kvs.find? (fun kv => strLower kv.1 == strLower key) with
              | some kv =>
                if pyTruthy kv.2 then
                  match findPhoneGo fuel kv.2 with
                  | some r => if pyTruthy r then some r else none
                  | none => none
                else none
              | none => none)
            match priorityHit with
            | some r => some r
            | none =>
              kvs.findSome? (fun kv =>
                match findPhoneGo fuel kv.2 with
                | some r => if pyTruthy r then some r else none
                | none => none)
          | _ => none
        match dictHit with
        | some r => some r
        | none =>
          match obj with
          | .pyAttrs _ _ =>
            phone_attr_keys.findSome? (fun key =>
              match pyGetattr obj key with
              | some v =>
                if pyTruthy v then
                  match findPhoneGo fuel v with
                  | some r => if pyTruthy r then some r else none
                  | none => none
                else none
              | none => none)
          | _ => none

/-- Embedding of `find_phone_recursive(obj, depth, max_depth)`. -/
def find_phone_recursive (obj : PyObj) (maxDepth : Nat) (depth : Nat) : Option PyObj :=
  findPhoneGo (maxDepth + 1 - depth) obj

/-- Python `a or b` where both operands come from lookups that may have
produced nothing (`None`). -/
def pyOrO (a b : Option PyObj) : Option PyObj :=
  match a with
  | some v => if pyTruthy v then some v else b
  | none => b

/-- Caller-number extraction from a conversation's `metadata` in
`get_latest_conversation_by_phone_number` (`src/elevenlabs_client.py`):
explicit `phone_call.external_number / caller_number / from / to /
agent_number` chain, then `find_phone_recursive` over the whole metadata
as fallback. -/
def metadata_caller_phone (md : PyObj) : Option PyObj :=
  let explicit : Option PyObj :=
    match md with
    | .pyDict kvs =>
      match dictGet kvs "phone_call" with
      | some (.pyDict pc) =>
        pyOrO (dictGet pc "external_number") (pyOrO (dictGet pc "caller_number")
          (pyOrO (dictGet pc "from") (pyOrO (dictGet pc "to") (dictGet pc "agent_number"))))
      | _ => none
    | _ => none
  if pyTruthyOpt explicit then explicit else find_phone_recursive md 3 0

/-- Digits-only phone normalization shared by all three comparison sites
(`''.join(c for c in str(phone) if c.isdigit())` /
`re.sub(r'[^\d]', '', str(phone))`), over strings as character lists. -/
def normalize_phone (s : List Char) : List Char := s.filter (fun c => c.isDigit)

/-- Python `s[-10:]` on a character list: the last ten characters, or the
whole list when it is shorter. -/
def lastTenL (l : List Char) : List Char := l.drop (l.length - 10)

/-- The phone comparison of the timestamp fallback in
`find_elevenlabs_conversation_by_call_sid`:
`caller_digits[-10:] == search_digits[-10:]`. -/
def fallback_phone_match (caller search : List Char) : Bool :=
  lastTenL (normalize_phone caller) == lastTenL (normalize_phone search)

/-- The known storage path of the Twilio call SID inside an ElevenLabs
conversation. -/
def knownSidPathStr : String :=
  "conversation_initiation_client_data.dynamic_variables.system__call_sid"

/-- The known-path SID probe of `find_elevenlabs_conversation_by_call_sid`
(`fetch_elevenlabs_from_twilio_call.py`, first block of the loop):
`conversation_initiation_client_data.dynamic_variables.system__call_sid`,
read through dict access, attribute access (also trying
`system_call_sid`), and a `model_dump()` retry when the first read gave a
falsy value.  Returns the pair `(found_value, found_path)`; note that the
source assigns `found_value` before testing it against the target, so a
truthy non-matching value is returned with a `none` path. -/
def knownPathSid (fc : PyObj) (target : String) : Option PyObj × Option String :=
  match pyGetattr fc "conversation_initiation_client_data" with
  | none => (none, none)
  | some cd =>
    let fv1 : Option PyObj :=
      match cd with
      | .pyDict kvs =>
        match dictGet kvs "dynamic_variables" with
        | some (.pyDict dv) => dictGet dv "system__call_sid"
        | some _ => none
        | none => none
      | _ =>
        match pyGetattr cd "dynamic_variables" with
        | some (.pyDict dv) => dictGet dv "system__call_sid"
        | some dv =>
          match pyGetattr dv "system__call_sid" with
          | some v => some v
          | none => pyGetattr dv "system_call_sid"
        | none => none
    let fp1 : Option String :=
      match fv1 with
      | some v => if pyTruthy v && (pyStrip (pyToStr v) == target) then some knownSidPathStr else none
      | none => none
    if pyTruthyOpt fv1 then (fv1, fp1)
    else
      match pyModelDump cd with
      | some (.pyDict dkvs) =>
        match dictGet dkvs "dynamic_variables" with
        | some (.pyDict dv) =>
          let v := dictGet dv "system__call_sid"
          let p : Option String :=
            match v with
            | some w => if pyTruthy w && (pyStrip (pyToStr w) == target) then some knownSidPathStr else none
            | none => none
          (v, p)
        | some _ => (fv1, fp1)
        | none => (none, fp1)
      | some _ => (fv1, fp1)
      | none => (fv1, fp1)

/-- Result dictionary of `find_elevenlabs_conversation_by_call_sid`: the
SID-match shape carries `twilio_call_sid` and `found_path`; the fallback
shape carries `time_diff_seconds`. -/
structure MatchResult where
  conversation_id : PyObj
  conversation : PyObj
  match_method : String
  twilio_call_sid : Option PyObj
  found_path : Option String
  time_diff_seconds : Option Nat

/-- Conversation-id extraction:
`getattr(conv, 'conversation_id', None) or getattr(conv, 'id', None) or
getattr(conv, 'conversation_uuid', None)`. -/
def convIdOf (conv : PyObj) : PyObj :=
  pyOrV (pyGetattrD conv "conversation_id")
    (pyOrV (pyGetattrD conv "id") (pyGetattrD conv "conversation_uuid"))

/-- Full-conversation fetch `elevenlabs_client.get_conversation(conv_id)`
with the `except: full_conv = conv` fallback; `getConv` is the client
call, `none` modelling an exception. -/
def fullConvOf (getConv : PyObj → Option PyObj) (conv : PyObj) : PyObj :=
  (getConv (convIdOf conv)).getD conv

/-- The complete SID probe for one conversation: known path first, then
`search_for_call_sid_recursive(full_conv, twilio_call_sid)` when the known
path produced a falsy `found_value`. -/
def sidCheckOf (getConv : PyObj → Option PyObj) (target : String) (conv : PyObj) :
    Option PyObj × Option String :=
  let fc := fullConvOf getConv conv
  let kp := knownPathSid fc target
  if pyTruthyOpt kp.1 then kp else search_for_call_sid_recursive fc target "" 10 0

/-- Attribute names probed for the caller number by the timestamp fallback
of `find_elevenlabs_conversation_by_call_sid`. -/
def fallback_phone_attrs : List String :=
  ["caller_phone_number", "phone_number", "from_phone_number", "twilio_from"]

/-- Caller-number extraction of the timestamp fallback: first truthy value
among four direct attributes (stringified and stripped), else the
`metadata.phone_call.(external_number | caller_number | from)` chain. -/
def fallbackCallerPhone (fc : PyObj) : Option PyObj :=
  let attrPhone := fallback_phone_attrs.findSome? (fun a =>
    match pyGetattr fc a with
    | some v => if pyTruthy v then some (PyObj.pyStr (pyStrip (pyToStr v))) else none
    | none => none)
  if pyTruthyOpt attrPhone then attrPhone
  else
    match pyGetattr fc "metadata" with
    | some (.pyDict md) =>
      match dictGet md "phone_call" with
      | some (.pyDict pc) =>
        pyOrO (dictGet pc "external_number")
          (pyOrO (dictGet pc "caller_number") (dictGet pc "from"))
      | _ => none
    | _ => none

/-- Attribute names probed for the conversation timestamp (the loop breaks
at the first attribute that exists, whatever its value). -/
def conv_timestamp_attrs : List String := ["created_at", "timestamp", "started_at"]

/-- Conversation-timestamp extraction and parsing of the fallback:
`datetime.fromisoformat(ts.replace('Z', '+00:00'))` for strings (modelled
by the `parseIso` parameter, `none` meaning the parse raised), the value
itself for datetimes; any other value makes the timestamp subtraction
raise, which the `except: pass` swallows. -/
def convParsedTimestamp (parseIso : String → Option Int) (fc : PyObj) : Option Int :=
  match conv_timestamp_attrs.findSome? (fun a => pyGetattr fc a) with
  | some ts =>
    if pyTruthy ts then
      match ts with
      | .pyStr s => parseIso s
      | .pyTime t => some t
      | _ => none
    else none
  | none => none

/-- The phone-and-timestamp fallback for one conversation (lines guarded by
`if phone_number and call_timestamp:`): extract a caller number, compare
last ten digits, then accept when the timestamps differ by less than 300
seconds. -/
def fallbackCheck (parseIso : String → Option Int) (phone : Option String)
    (callTs : Option Int) (convId fc : PyObj) : Option MatchResult :=
  match phone, callTs with
  | some p, some ts =>
    if p.isEmpty then none
    else
      match fallbackCallerPhone fc with
      | some cp =>
        if pyTruthy cp then
          if fallback_phone_match (pyToStr cp).data p.data then
            match convParsedTimestamp parseIso fc with
            | some t =>
              if (t - ts).natAbs < 300 then
                some ⟨convId, fc, "phone_and_timestamp", none, none, some (t - ts).natAbs⟩
              else none
            | none => none
          else none
        else none
      | none => none
  | _, _ => none

/-- One iteration of the conversation loop of
`find_elevenlabs_conversation_by_call_sid`: skip conversations without an
id, probe for the call SID (known path, then recursive search), return a
`twilio_call_sid` match on a truthy found value, otherwise try the
phone-and-timestamp fallback. -/
def checkConversation (getConv : PyObj → Option PyObj) (parseIso : String → Option Int)
    (target : String) (phone : Option String) (callTs : Option Int) (conv : PyObj) :
    Option MatchResult :=
  let convId := convIdOf conv
  if !pyTruthy convId then none
  else
    let fc := fullConvOf getConv conv
    let sidHit := sidCheckOf getConv target conv
    if pyTruthyOpt sidHit.1 then
      some ⟨convId, fc, "twilio_call_sid", sidHit.1, sidHit.2, none⟩
    else fallbackCheck parseIso phone callTs convId fc

/-- Embedding of `find_elevenlabs_conversation_by_call_sid` over an
already-listed batch of conversations: the first conversation the loop
accepts, `none` when the loop finishes without a match (the function's
final `return None`). -/
def find_elevenlabs_conversation_by_call_sid (getConv : PyObj → Option PyObj)
    (parseIso : String → Option Int) (conversations : List PyObj) (target : String)
    (phone : Option String) (callTs : Option Int) : Option MatchResult :=
  conversations.findSome? (checkConversation getConv parseIso target phone callTs)

/-- Python `phone_number.startswith('+1')` over character lists. -/
def startsWithPlusOne (p : List Char) : Bool := List.isPrefixOf ['+', '1'] p

/-- Search-number variations of `find_conversations_by_phone.py` (and the
identical block of `get_latest_conversation_by_phone_number`): the
digits-only form, plus the form with the leading `1` removed when the
formatted number starts with `+1` and normalizes to 11 digits. -/
def search_variations (p : List Char) : List (List Char) :=
  let sd := normalize_phone p
  if startsWithPlusOne p && sd.length == 11 then [sd, sd.drop 1] else [sd]

/-- The caller-vs-variations matching loop shared by
`find_conversations_by_phone.py` and `get_latest_conversation_by_phone_number`:
exact digit equality, or last-ten-digit equality when both digit strings
have at least ten digits. -/
def phone_matches (callerDigits : List Char) (variations : List (List Char)) : Bool :=
  variations.any (fun v =>
    callerDigits == v ||
    (decide (10 ≤ callerDigits.length) && decide (10 ≤ v.length) &&
      lastTenL callerDigits == lastTenL v))

/-- Python `re.sub(r'[^\d+]', '', s)` over character lists. -/
def cleanedPlusL (s : List Char) : List Char := s.filter (fun c => c.isDigit || c == '+')

/-- The E.164 prefixing of `get_latest_conversation_by_phone_number`
(`src/elevenlabs_client.py`): strip, and when the number does not start
with `+`, keep digits and `+` and prepend `+1` (or just `+` when the
cleaned form is 11 characters starting with `1`). -/
def e164_normalize (p : List Char) : List Char :=
  let n := trimWs p
  if n.head? == some '+' then n
  else
    let c := cleanedPlusL n
    if c.length == 10 then '+' :: '1' :: c
    else if c.length == 11 && c.head? == some '1' then '+' :: c
    else '+' :: '1' :: c

/-- Search-number variations of `get_latest_conversation_by_phone_number`,
built from the E.164-prefixed form. -/
def search_variations_el (p : List Char) : List (List Char) :=
  let n := e164_normalize p
  let sd := normalize_phone n
  if startsWithPlusOne n && sd.length == 11 then [sd, sd.drop 1] else [sd]

/-- Row of the `users` table (migration `001_create_users_table.py` plus
the phone-number and approval columns of migrations 002 to 004); times are
UTC seconds, `one_time_code` and `one_time_code_expiry` are nullable. -/
structure UserRow where
  id : Nat
  email : String
  first_name : Option String
  last_name : Option String
  phone_number : Option String
  approved : Option String
  one_time_code : Option String
  one_time_code_expiry : Option Int
deriving DecidableEq

/-- The non-sensitive user data returned by `verify_login_code`. -/
structure UserData where
  id : Nat
  email : String
  first_name : Option String
  last_name : Option String
  phone_number : Option String
  approved : Option String
deriving DecidableEq

/-- Projection of a row to the returned user data. -/
def userDataOf (u : UserRow) : UserData :=
  ⟨u.id, u.email, u.first_name, u.last_name, u.phone_number, u.approved⟩

/-- An email handed to `send_email` (`src/gmail_client.py`). -/
structure EmailMsg where
  to_email : String
  subject : String
  body : String
deriving DecidableEq

/-- Embedding of `generate_one_time_code` (`src/auth.py`):
`''.join([str(secrets.randbelow(10)) for _ in range(6)])`.  The randomness
source is the parameter `r`; `secrets.randbelow(10)` guarantees each draw
lies in `[0, 10)`, which `Fin 10` records. -/
def generate_one_time_code (r : Fin 6 → Fin 10) : String :=
  String.join ((List.finRange 6).map (fun i => Nat.repr (r i).val))

/-- The `SELECT ... FROM users WHERE email = %s` lookup (`fetchone`
returns the first matching row). -/
def find_user_by_email (db : List UserRow) (email : String) : Option UserRow :=
  db.find? (fun u => u.email == email)

/-- Python `first_name or "there"`. -/
def userNameOf (u : UserRow) : String :=
  match u.first_name with
  | some n => if n.isEmpty then "there" else n
  | none => "there"

/-- The login-code email body built by `request_login_code`. -/
def login_email_body (name code : String) : String :=
  "Hi " ++ name ++ ",\n\nYour login code for Journie is: " ++ code ++
  "\n\nThis code will expire in 15 minutes.\n\nIf you didn\x27t request this code, please ignore this email.\n\nBest,\nThe Journie Team\n"

/-- Embedding of `request_login_code(email)` (`src/auth.py`): look the user
up by email, store a fresh code with expiry `now + 15 minutes`, then send
the email (`sendOk` models whether `send_email` raised; the database
update is committed either way because the `with` block closes before the
send).  Returns the `(success, message)` pair, the new table, and the
delivered email when sending succeeded. -/
def request_login_code (db : List UserRow) (email : String) (now : Int)
    (r : Fin 6 → Fin 10) (sendOk : Bool) :
    (Bool × String) × List UserRow × Option EmailMsg :=
  match find_user_by_email db email with
  | none => ((false, "Email not found. Please sign up first."), db, none)
  | some u =>
    let code := generate_one_time_code r
    let expiry := now + 15 * 60
    let db2 := db.map (fun row =>
      if row.id == u.id then
        { row with one_time_code := some code, one_time_code_expiry := some expiry }
      else row)
    if sendOk then
      ((true, "Login code sent to your email"), db2,
        some ⟨email, "Your Journie Login Code", login_email_body (userNameOf u) code⟩)
    else
      ((false, "Failed to send email"), db2, none)

/-- The `UPDATE users SET one_time_code = NULL, one_time_code_expiry =
NULL WHERE id = %s` step of `verify_login_code`. -/
def clear_user_code (db : List UserRow) (uid : Nat) : List UserRow :=
  db.map (fun row =>
    if row.id == uid then
      { row with one_time_code := none, one_time_code_expiry := none }
    else row)

/-- Embedding of `verify_login_code(email, code)` (`src/auth.py`): find the
row with `email = %s AND one_time_code = %s`; fail when none, fail when the
stored expiry exists and `now` is past it, otherwise clear the code and the
expiry and return the user data.  Returns the `(success, user_data)` pair
and the new table. -/
def verify_login_code (db : List UserRow) (email code : String) (now : Int) :
    (Bool × Option UserData) × List UserRow :=
  match db.find? (fun u => u.email == email && u.one_time_code == some code) with
  | none => ((false, none), db)
  | some u =>
    match u.one_time_code_expiry with
    | some e =>
      if now > e then ((false, none), db)
      else ((true, some (userDataOf u)), clear_user_code db u.id)
    | none => ((true, some (userDataOf u)), clear_user_code db u.id)

/-- A whitespace character is never a decimal digit. -/
lemma ws_not_digit : ∀ c : Char, c.isWhitespace = true → c.isDigit = false := by
  intro c h
  simp only [Char.isWhitespace, Bool.or_eq_true, decide_eq_true_eq] at h
  rcases h with ((h | h) | h) | h <;> subst h <;> decide

/-- Filtering with `p` ignores a dropped prefix of elements that all
falsify `p`. -/
lemma filter_dropWhile_of_imp {α : Type} {p q : α → Bool}
    (h : ∀ a, q a = true → p a = false) :
    ∀ l : List α, (l.dropWhile q).filter p = l.filter p := by
  intro l
  induction l with
  | nil => rfl
  | cons a t ih =>
    cases hq : q a with
    | true =>
      rw [List.dropWhile_cons_of_pos hq, ih, List.filter_cons, h a hq]
      simp
    | false =>
      rw [List.dropWhile_cons_of_neg (by simp [hq])]

/-- Digit filtering is invariant under Python `strip()`. -/
lemma normalize_phone_trimWs (l : List Char) :
    normalize_phone (trimWs l) = normalize_phone l := by
  unfold normalize_phone trimWs
  rw [List.filter_reverse, filter_dropWhile_of_imp (fun a ha => ws_not_digit a ha),
    List.filter_reverse, List.reverse_reverse,
    filter_dropWhile_of_imp (fun a ha => ws_not_digit a ha)]

/-- Digit filtering is invariant under `re.sub(r'[^\d+]', '', s)`. -/
lemma normalize_phone_cleanedPlus (l : List Char) :
    normalize_phone (cleanedPlusL l) = normalize_phone l := by
  unfold normalize_phone cleanedPlusL
  rw [List.filter_filter]
  refine List.filter_congr ?_
  intro a _
  cases h : a.isDigit <;> simp [h]

/-- Dropping all but the last ten characters ignores one prepended
character when at least ten remain. -/
lemma lastTenL_cons (c : Char) (l : List Char) (h : 10 ≤ l.length) :
    lastTenL (c :: l) = lastTenL l := by
  unfold lastTenL
  have h1 : (c :: l).length - 10 = (l.length - 10) + 1 := by
    simp only [List.length_cons]; omega
  rw [h1, List.drop_succ_cons]

/-- A `'+'` is dropped by digit filtering. -/
lemma normalize_phone_cons_plus (l : List Char) :
    normalize_phone ('+' :: l) = normalize_phone l := by
  unfold normalize_phone
  rw [List.filter_cons]
  simp [show ('+' : Char).isDigit = false from by decide]

/-- A `'1'` is kept by digit filtering. -/
lemma normalize_phone_cons_one (l : List Char) :
    normalize_phone ('1' :: l) = '1' :: normalize_phone l := by
  unfold normalize_phone
  rw [List.filter_cons]
  simp [show ('1' : Char).isDigit = true from by decide]

/-- The digits of the E.164-prefixed number are the digits of the input,
possibly with one `'1'` prepended. -/
lemma normalize_phone_e164 (p : List Char) :
    normalize_phone (e164_normalize p) = normalize_phone p ∨
    normalize_phone (e164_normalize p) = '1' :: normalize_phone p := by
  unfold e164_normalize
  dsimp only
  split
  · exact Or.inl (normalize_phone_trimWs p)
  · split
    · refine Or.inr ?_
      rw [normalize_phone_cons_plus, normalize_phone_cons_one,
        normalize_phone_cleanedPlus, normalize_phone_trimWs]
    · split
      · refine Or.inl ?_
        rw [normalize_phone_cons_plus, normalize_phone_cleanedPlus,
          normalize_phone_trimWs]
      · refine Or.inr ?_
        rw [normalize_phone_cons_plus, normalize_phone_cons_one,
          normalize_phone_cleanedPlus, normalize_phone_trimWs]

/-- Claim C6: `search_for_call_sid_recursive` terminates with recursion
depth bounded by `max_depth`: a call with `current_depth > max_depth`
immediately returns `(None, None)`, and the computation depends only on
the remaining budget `max_depth - current_depth` (each recursive call
consumes one unit), so the embedding `searchSidGo`, which recurses on that
budget alone, is total on arbitrarily-shaped inputs. -/
theorem c6_search_depth_bounded :
    (∀ (obj : PyObj) (target path : String) (maxDepth currentDepth : Nat),
        maxDepth < currentDepth →
        search_for_call_sid_recursive obj target path maxDepth currentDepth = (none, none)) ∧
    (∀ (obj : PyObj) (target path : String) (maxDepth currentDepth k : Nat),
        search_for_call_sid_recursive obj target path (maxDepth + k) (currentDepth + k) =
          search_for_call_sid_recursive obj target path maxDepth currentDepth) := by
  constructor
  · intro obj target path maxDepth currentDepth h
    unfold search_for_call_sid_recursive
    have h0 : maxDepth + 1 - currentDepth = 0 := by omega
    rw [h0]
    rfl
  · intro obj target path maxDepth currentDepth k
    unfold search_for_call_sid_recursive
    have h0 : maxDepth + k + 1 - (currentDepth + k) = maxDepth + 1 - currentDepth := by omega
    rw [h0]

/-- Witness for C6 at depth 11 > 10 on a sample object. -/
theorem c6_witness :
    search_for_call_sid_recursive (.pyStr "CA123") "CA123" "" 10 11 = (none, none) :=
  c6_search_depth_bounded.1 (.pyStr "CA123") "CA123" "" 10 11 (by omega)

/-- Claim C3: phone-number normalization keeps exactly the decimal digits
of its input, in order (it is a sub-sequence of the input made of all its
digits and nothing else), and when the formatted search number starts with
`+1` and normalizes to 11 digits the search uses both the 11-digit form
and the 10-digit form obtained by removing the leading `1`. -/
theorem c3_normalize_phone_digits :
    (∀ l : List Char, (normalize_phone l).Sublist l) ∧
    (∀ (l : List Char) (c : Char), c ∈ normalize_phone l → c.isDigit = true) ∧
    (∀ (l : List Char) (c : Char), c.isDigit = true →
      (normalize_phone l).count c = l.count c) ∧
    (∀ p : List Char, startsWithPlusOne p = true → (normalize_phone p).length = 11 →
      search_variations p = [normalize_phone p, (normalize_phone p).drop 1] ∧
      normalize_phone p = '1' :: (normalize_phone p).drop 1 ∧
      ((normalize_phone p).drop 1).length = 10) := by
  refine ⟨?_, ?_, ?_, ?_⟩
  · intro l
    exact List.filter_sublist l
  · intro l c h
    unfold normalize_phone at h
    simpa using (List.mem_filter.1 h).2
  · intro l c h
    unfold normalize_phone
    exact List.count_filter (by simpa using h)
  · intro p hpre hlen
    have hp : ['+', '1'] <+: p := by
      rw [← List.isPrefixOf_iff_prefix]
      exact hpre
    obtain ⟨t, ht⟩ := hp
    have hnp : normalize_phone p = '1' :: normalize_phone t := by
      rw [← ht]
      show normalize_phone ('+' :: '1' :: t) = _
      rw [normalize_phone_cons_plus, normalize_phone_cons_one]
    refine ⟨?_, ?_, ?_⟩
    · unfold search_variations
      dsimp only
      rw [if_pos]
      simp [hpre, hlen]
    · rw [hnp]
      simp
    · rw [List.length_drop, hlen]

/-- Witness for C3 on the `+1` U.S. number from the source comments. -/
theorem c3_witness :
    search_variations ("+18603048753".data) =
      [normalize_phone ("+18603048753".data),
       (normalize_phone ("+18603048753".data)).drop 1] ∧
    normalize_phone ("+18603048753".data) =
      '1' :: (normalize_phone ("+18603048753".data)).drop 1 ∧
    ((normalize_phone ("+18603048753".data)).drop 1).length = 10 :=
  c3_normalize_phone_digits.2.2.2 ("+18603048753".data) (by decide) (by decide)

/-- Claim C10: two phone numbers whose digits-only normalizations agree in
their last ten digits (each having at least ten digits) are treated as the
same number by all three comparison sites: the timestamp fallback of
`find_elevenlabs_conversation_by_call_sid`, the phone verification of
`find_conversations_by_phone`, and the lookup of
`get_latest_conversation_by_phone_number`. -/
theorem c10_last_ten_digits_match :
    ∀ caller search : List Char,
      10 ≤ (normalize_phone caller).length → 10 ≤ (normalize_phone search).length →
      lastTenL (normalize_phone caller) = lastTenL (normalize_phone search) →
      fallback_phone_match caller search = true ∧
      phone_matches (normalize_phone caller) (search_variations search) = true ∧
      phone_matches (normalize_phone caller) (search_variations_el search) = true := by
  intro caller search hc hs h10
  refine ⟨?_, ?_, ?_⟩
  · unfold fallback_phone_match
    simp [h10]
  · unfold phone_matches
    rw [List.any_eq_true]
    refine ⟨normalize_phone search, ?_, ?_⟩
    · unfold search_variations
      dsimp only
      split <;> simp
    · simp [hc, hs, h10]
  · unfold phone_matches
    rw [List.any_eq_true]
    refine ⟨normalize_phone (e164_normalize search), ?_, ?_⟩
    · unfold search_variations_el
      dsimp only
      split <;> simp
    · rcases normalize_phone_e164 search with he | he
      · simp [he, hc, hs, h10]
      · have hlen : 10 ≤ (normalize_phone (e164_normalize search)).length := by
          rw [he, List.length_cons]
          omega
        have hten : lastTenL (normalize_phone (e164_normalize search)) =
            lastTenL (normalize_phone search) := by
          rw [he, lastTenL_cons _ _ hs]
        simp [hc, hlen, h10, hten]

/-- Witness for C10: a formatted caller number and the same number in
E.164 form match at each site. -/
theorem c10_witness :
    fallback_phone_match ("1 (860) 304-8753".data) ("+18603048753".data) = true ∧
    phone_matches (normalize_phone ("1 (860) 304-8753".data))
      (search_variations ("+18603048753".data)) = true ∧
    phone_matches (normalize_phone ("1 (860) 304-8753".data))
      (search_variations_el ("+18603048753".data)) = true :=
  c10_last_ten_digits_match ("1 (860) 304-8753".data) ("+18603048753".data)
    (by decide) (by decide) (by decide)

/-- Claim C7: a one-time code is short-lived.  `request_login_code` stores
an expiry exactly 15 minutes after issuance, and `verify_login_code`
returns `(False, None)` whenever the matched row has a stored expiry and
the current time is later than it, so an expired code never authenticates. -/
theorem c7_code_expires :
    (∀ (db : List UserRow) (email : String) (now : Int) (r : Fin 6 → Fin 10)
        (sendOk : Bool) (u row : UserRow),
      find_user_by_email db email = some u →
      row ∈ (request_login_code db email now r sendOk).2.1 → row.id = u.id →
      row.one_time_code_expiry = some (now + 15 * 60)) ∧
    (∀ (db : List UserRow) (email code : String) (now : Int) (u : UserRow) (e : Int),
      db.find? (fun x => x.email == email && x.one_time_code == some code) = some u →
      u.one_time_code_expiry = some e → e < now →
      (verify_login_code db email code now).1 = (false, none)) := by
  constructor
  · intro db email now r sendOk u row hfind hmem hid
    unfold request_login_code at hmem
    rw [hfind] at hmem
    dsimp only at hmem
    have hmem2 : row ∈ db.map (fun y =>
        if y.id == u.id then
          { y with one_time_code := some (generate_one_time_code r),
                   one_time_code_expiry := some (now + 15 * 60) }
        else y) := by
      cases sendOk
      · exact hmem
      · exact hmem
    rcases List.mem_map.1 hmem2 with ⟨y, _, rfl⟩
    cases hb : (y.id == u.id) with
    | true => simp [hb]
    | false =>
      rw [if_neg (by simp [hb])] at hid ⊢
      exact absurd hid (by simpa using hb)
  · intro db email code now u e hfind hexp hnow
    unfold verify_login_code
    rw [hfind]
    dsimp only
    rw [hexp]
    dsimp only
    rw [if_pos hnow]

/-- Witness for C7: an expired code (expiry 1000, verified at 1500) is
rejected, and a freshly requested code carries expiry `now + 15 * 60`. -/
theorem c7_witness :
    (verify_login_code
        [⟨1, "a@b.c", some "Al", none, none, none, some "123456", some 1000⟩]
        "a@b.c" "123456" 1500).1 = (false, none) ∧
    (⟨1, "a@b.c", some "Al", none, none, none, some "333333", some 900⟩ : UserRow).one_time_code_expiry
      = some ((0 : Int) + 15 * 60) :=
  ⟨c7_code_expires.2 _ "a@b.c" "123456" 1500
      ⟨1, "a@b.c", some "Al", none, none, none, some "123456", some 1000⟩ 1000
      rfl rfl (by omega),
   c7_code_expires.1 [⟨1, "a@b.c", some "Al", none, none, none, some "123456", some 1000⟩]
      "a@b.c" 0 (fun _ => (3 : Fin 10)) true
      ⟨1, "a@b.c", some "Al", none, none, none, some "123456", some 1000⟩ _
      rfl (by decide) rfl⟩

/-- Data of a left fold of string appends. -/
lemma foldl_append_data (l : List String) : ∀ s : String,
    (l.foldl (fun r t => r ++ t) s).data = s.data ++ (l.map String.data).flatten := by
  induction l with
  | nil => intro s; simp
  | cons a t ih => intro s; simp [ih, String.data_append]

/-- Data of `String.join`. -/
lemma string_join_data (l : List String) :
    (String.join l).data = (l.map String.data).flatten := by
  have h := foldl_append_data l ""
  simp at h
  exact h

/-- Joining singleton lists is mapping. -/
lemma join_map_singleton {α β : Type} (g : α → β) : ∀ L : List α,
    (L.map (fun a => [g a])).flatten = L.map g := by
  intro L
  induction L with
  | nil => rfl
  | cons a t ih => simp [ih]

/-- Python `str(n)` for `n` below ten is the single digit character. -/
lemma repr_digit_data : ∀ n : Fin 10, (Nat.repr n.val).data = [Nat.digitChar n.val] := by
  decide

/-- Digit characters pass `isDigit`. -/
lemma digitChar_isDigit10 : ∀ n : Fin 10, (Nat.digitChar n.val).isDigit = true := by
  decide

/-- The generated code is the six digit characters of the six draws. -/
lemma generate_code_data (r : Fin 6 → Fin 10) :
    (generate_one_time_code r).data =
      (List.finRange 6).map (fun i => Nat.digitChar (r i).val) := by
  unfold generate_one_time_code
  rw [string_join_data, List.map_map]
  have h : (String.data ∘ fun i : Fin 6 => Nat.repr (r i).val) =
      fun i : Fin 6 => [Nat.digitChar (r i).val] := by
    funext i
    exact repr_digit_data (r i)
  rw [h, join_map_singleton]

/-- Claim C8: `generate_one_time_code` always returns a string of exactly
six decimal-digit characters, and this string is the code stored for the
user and placed in the emailed body. -/
theorem c8_code_numeric :
    ∀ r : Fin 6 → Fin 10,
      (generate_one_time_code r).length = 6 ∧
      (∀ c ∈ (generate_one_time_code r).data, c.isDigit = true) ∧
      (∀ (db : List UserRow) (email : String) (now : Int) (sendOk : Bool) (u : UserRow),
        find_user_by_email db email = some u →
        (∀ row ∈ (request_login_code db email now r sendOk).2.1, row.id = u.id →
          row.one_time_code = some (generate_one_time_code r)) ∧
        (sendOk = true →
          ∃ pre post, (request_login_code db email now r sendOk).2.2 =
            some ⟨email, "Your Journie Login Code",
              pre ++ generate_one_time_code r ++ post⟩)) := by
  intro r
  refine ⟨?_, ?_, ?_⟩
  · show (generate_one_time_code r).data.length = 6
    rw [generate_code_data]
    simp
  · intro c hc
    rw [generate_code_data] at hc
    rcases List.mem_map.1 hc with ⟨i, _, rfl⟩
    exact digitChar_isDigit10 (r i)
  · intro db email now sendOk u hfind
    constructor
    · intro row hmem hid
      unfold request_login_code at hmem
      rw [hfind] at hmem
      dsimp only at hmem
      have hmem2 : row ∈ db.map (fun y =>
          if y.id == u.id then
            { y with one_time_code := some (generate_one_time_code r),
                     one_time_code_expiry := some (now + 15 * 60) }
          else y) := by
        cases sendOk
        · exact hmem
        · exact hmem
      rcases List.mem_map.1 hmem2 with ⟨y, _, rfl⟩
      cases hb : (y.id == u.id) with
      | true => simp [hb]
      | false =>
        rw [if_neg (by simp [hb])] at hid ⊢
        exact absurd hid (by simpa using hb)
    · intro hS
      subst hS
      unfold request_login_code
      rw [hfind]
      dsimp only
      refine ⟨"Hi " ++ userNameOf u ++ ",\n\nYour login code for Journie is: ",
        "\n\nThis code will expire in 15 minutes.\n\nIf you didn\x27t request this code, please ignore this email.\n\nBest,\nThe Journie Team\n",
        ?_⟩
      rw [if_pos rfl]
      unfold login_email_body
      rfl

/-- Witness for C8: six digits from the constant draw 3, and the email
body carries the code. -/
theorem c8_witness :
    (generate_one_time_code (fun _ => (3 : Fin 10))).length = 6 ∧
    (∃ pre post,
      (request_login_code [⟨1, "a@b.c", some "Al", none, none, none, none, none⟩]
          "a@b.c" 0 (fun _ => (3 : Fin 10)) true).2.2 =
        some ⟨"a@b.c", "Your Journie Login Code",
          pre ++ generate_one_time_code (fun _ => (3 : Fin 10)) ++ post⟩) :=
  ⟨(c8_code_numeric (fun _ => (3 : Fin 10))).1,
   ((c8_code_numeric (fun _ => (3 : Fin 10))).2.2
      [⟨1, "a@b.c", some "Al", none, none, none, none, none⟩] "a@b.c" 0 true
      ⟨1, "a@b.c", some "Al", none, none, none, none, none⟩ rfl).2 rfl⟩

/-- In a table whose rows have pairwise-distinct emails (the `UNIQUE`
constraint of migration 001), equal emails force equal rows. -/
lemma pairwise_email_inj (l : List UserRow)
    (h : l.Pairwise (fun a b => a.email ≠ b.email)) :
    ∀ x ∈ l, ∀ y ∈ l, x.email = y.email → x = y := by
  induction h with
  | nil => intro x hx; cases hx
  | cons hrel _ ih =>
    intro x hx y hy hxy
    rcases List.mem_cons.1 hx with hxa | hx2
    · rcases List.mem_cons.1 hy with hya | hy2
      · rw [hxa, hya]
      · subst hxa
        exact absurd hxy (hrel y hy2)
    · rcases List.mem_cons.1 hy with hya | hy2
      · subst hya
        exact absurd hxy.symm (hrel x hx2)
      · exact ih x hx2 y hy2 hxy

/-- After a successful verification the matched user's code columns are
cleared, so no row of the new table still matches the email/code pair. -/
lemma find_cleared_none (db : List UserRow) (email code : String) (u : UserRow)
    (hpw : db.Pairwise (fun a b => a.email ≠ b.email))
    (hfind : db.find? (fun x => x.email == email && x.one_time_code == some code) = some u) :
    (clear_user_code db u.id).find?
      (fun x => x.email == email && x.one_time_code == some code) = none := by
  have hu_mem : u ∈ db := List.mem_of_find?_eq_some hfind
  have hu_pred := List.find?_some hfind
  rw [Bool.and_eq_true] at hu_pred
  rw [List.find?_eq_none]
  intro x hx
  unfold clear_user_code at hx
  rcases List.mem_map.1 hx with ⟨y, hy, rfl⟩
  cases hb : (y.id == u.id) with
  | true => simp
  | false =>
    rw [if_neg (by simp)]
    intro hcontra
    rw [Bool.and_eq_true] at hcontra
    have hemail : y.email = email := by simpa using hcontra.1
    have huemail : u.email = email := by simpa using hu_pred.1
    have : u = y := pairwise_email_inj db hpw u hu_mem y hy (huemail.trans hemail.symm)
    subst this
    simp at hb

/-- Claim C9: a one-time code authenticates at most one login.  When
`verify_login_code` succeeds it clears the user's `one_time_code` and
`one_time_code_expiry` in the same operation, so repeating the call with
the same email and code against the resulting table finds no matching row
and returns `(False, None)`.  (Emails are pairwise distinct, per the
`UNIQUE` constraint on `users.email`.) -/
theorem c9_code_single_use :
    ∀ (db : List UserRow) (email code : String) (now now2 : Int),
      db.Pairwise (fun a b => a.email ≠ b.email) →
      (verify_login_code db email code now).1.1 = true →
      verify_login_code ((verify_login_code db email code now).2) email code now2 =
        ((false, none), (verify_login_code db email code now).2) := by
  intro db email code now now2 hpw hok
  unfold verify_login_code at hok
  cases hfind : db.find? (fun x => x.email == email && x.one_time_code == some code) with
  | none =>
    rw [hfind] at hok
    simp at hok
  | some u =>
    rw [hfind] at hok
    dsimp only at hok
    cases hexp2 : u.one_time_code_expiry with
    | some e =>
      rw [hexp2] at hok
      dsimp only at hok
      by_cases hlt : now > e
      · rw [if_pos hlt] at hok
        simp at hok
      · have hres : verify_login_code db email code now =
            ((true, some (userDataOf u)), clear_user_code db u.id) := by
          unfold verify_login_code
          rw [hfind]
          dsimp only
          rw [hexp2]
          dsimp only
          rw [if_neg hlt]
        rw [hres]
        unfold verify_login_code
        rw [find_cleared_none db email code u hpw hfind]
    | none =>
      have hres : verify_login_code db email code now =
          ((true, some (userDataOf u)), clear_user_code db u.id) := by
        unfold verify_login_code
        rw [hfind]
        dsimp only
        rw [hexp2]
      rw [hres]
      unfold verify_login_code
      rw [find_cleared_none db email code u hpw hfind]

/-- Witness for C9 on a one-row table: the first verification succeeds and
the immediate retry fails. -/
theorem c9_witness :
    verify_login_code
        ((verify_login_code
            [⟨1, "a@b.c", some "Al", none, none, none, some "654321", some 1000⟩]
            "a@b.c" "654321" 500).2)
        "a@b.c" "654321" 600 =
      ((false, none),
        (verify_login_code
            [⟨1, "a@b.c", some "Al", none, none, none, some "654321", some 1000⟩]
            "a@b.c" "654321" 500).2) :=
  c9_code_single_use
    [⟨1, "a@b.c", some "Al", none, none, none, some "654321", some 1000⟩]
    "a@b.c" "654321" 500 600 (by simp) (by decide)
/-- A truthy optional value is a `some`. -/
lemma pyTruthyOpt_eq_true {o : Option PyObj} (h : pyTruthyOpt o = true) :
    ∃ w, o = some w := by
  cases o with
  | none => simp [pyTruthyOpt] at h
  | some w => exact ⟨w, rfl⟩

lemma searchSidGo_zero (obj : PyObj) (target path : String) :
    searchSidGo 0 obj target path = (none, none) := rfl

lemma searchSidGo_pyNone (n : Nat) (target path : String) :
    searchSidGo (n + 1) .pyNone target path = (none, none) := rfl

lemma searchSidGo_pyStr (n : Nat) (s : String) (target path : String) :
    searchSidGo (n + 1) (.pyStr s) target path =
      if pyStrip (pyToStr (.pyStr s)) == target then (some (.pyStr s), some path)
      else (none, none) := rfl

lemma searchSidGo_pyTime (n : Nat) (t : Int) (target path : String) :
    searchSidGo (n + 1) (.pyTime t) target path =
      if pyStrip (pyToStr (.pyTime t)) == target then (some (.pyTime t), some path)
      else (none, none) := rfl

lemma searchSidGo_pyDict (n : Nat) (kvs : List (String × PyObj)) (target path : String) :
    searchSidGo (n + 1) (.pyDict kvs) target path =
      if pyStrip (pyToStr (.pyDict kvs)) == target then (some (.pyDict kvs), some path)
      else
        match kvs.findSome? (fun kv =>
            if pyStrip kv.1 == target then
              some (some (.pyStr kv.1), some (path ++ "." ++ kv.1))
            else
              let r := searchSidGo n kv.2 target (joinPath path kv.1)
              if pyTruthyOpt r.1 then some r else none) with
        | some r => r
        | none => (none, none) := rfl

lemma searchSidGo_pyList (n : Nat) (xs : List PyObj) (target path : String) :
    searchSidGo (n + 1) (.pyList xs) target path =
      if pyStrip (pyToStr (.pyList xs)) == target then (some (.pyList xs), some path)
      else
        match xs.enum.findSome? (fun ix =>
            let r := searchSidGo n ix.2 target
              (if path == "" then "[" ++ toString ix.1 ++ "]"
               else path ++ "[" ++ toString ix.1 ++ "]")
            if pyTruthyOpt r.1 then some r else none) with
        | some r => r
        | none => (none, none) := rfl

lemma searchSidGo_pyAttrs (n : Nat) (attrs : List (String × PyObj)) (dump : Option PyObj)
    (target path : String) :
    searchSidGo (n + 1) (.pyAttrs attrs dump) target path =
      if pyStrip (pyToStr (.pyAttrs attrs dump)) == target then
        (some (.pyAttrs attrs dump), some path)
      else
        match attrs.findSome? (fun kv =>
            let r := searchSidGo n kv.2 target (joinPath path kv.1)
            if pyTruthyOpt r.1 then some r else none) with
        | some r => r
        | none =>
          match dump with
          | some d => searchSidGo n d target path
          | none => (none, none) := rfl

/-- Every value the SID search returns stripped-string-equals the target. -/
lemma searchSidGo_fst_eq :
    ∀ (fuel : Nat) (obj : PyObj) (target path : String) (v : PyObj),
      (searchSidGo fuel obj target path).1 = some v → pyStrip (pyToStr v) = target := by
  intro fuel
  induction fuel with
  | zero =>
    intro obj target path v h
    rw [searchSidGo_zero] at h
    simp at h
  | succ n ih =>
    intro obj target path v h
    cases obj with
    | pyNone =>
      rw [searchSidGo_pyNone] at h
      simp at h
    | pyStr s =>
      rw [searchSidGo_pyStr] at h
      split at h
      · next hc =>
        replace h : some (PyObj.pyStr s) = some v := h
        rw [Option.some.injEq] at h
        subst h
        exact eq_of_beq hc
      · simp at h
    | pyTime t =>
      rw [searchSidGo_pyTime] at h
      split at h
      · next hc =>
        replace h : some (PyObj.pyTime t) = some v := h
        rw [Option.some.injEq] at h
        subst h
        exact eq_of_beq hc
      · simp at h
    | pyDict kvs =>
      rw [searchSidGo_pyDict] at h
      split at h
      · next hc =>
        replace h : some (PyObj.pyDict kvs) = some v := h
        rw [Option.some.injEq] at h
        subst h
        exact eq_of_beq hc
      · split at h
        · next r heq =>
          obtain ⟨kv, hmem, hkv⟩ := List.exists_of_findSome?_eq_some heq
          dsimp only at hkv
          split at hkv
          · next hkey =>
            rw [Option.some.injEq] at hkv
            subst hkv
            replace h : some (PyObj.pyStr kv.1) = some v := h
            rw [Option.some.injEq] at h
            subst h
            exact eq_of_beq hkey
          · split at hkv
            · rw [Option.some.injEq] at hkv
              subst hkv
              exact ih kv.2 target (joinPath path kv.1) v h
            · exact Option.noConfusion hkv
        · simp at h
    | pyList xs =>
      rw [searchSidGo_pyList] at h
      split at h
      · next hc =>
        replace h : some (PyObj.pyList xs) = some v := h
        rw [Option.some.injEq] at h
        subst h
        exact eq_of_beq hc
      · split at h
        · next r heq =>
          obtain ⟨ix, hmem, hix⟩ := List.exists_of_findSome?_eq_some heq
          dsimp only at hix
          split at hix <;> split at hix <;>
            first
              | exact Option.noConfusion hix
              | (rw [Option.some.injEq] at hix
                 subst hix
                 exact ih ix.2 target _ v h)
        · simp at h
    | pyAttrs attrs dump =>
      rw [searchSidGo_pyAttrs] at h
      split at h
      · next hc =>
        replace h : some (PyObj.pyAttrs attrs dump) = some v := h
        rw [Option.some.injEq] at h
        subst h
        exact eq_of_beq hc
      · split at h
        · next r heq =>
          obtain ⟨kv, hmem, hkv⟩ := List.exists_of_findSome?_eq_some heq
          dsimp only at hkv
          split at hkv
          · rw [Option.some.injEq] at hkv
            subst hkv
            exact ih kv.2 target (joinPath path kv.1) v h
          · exact Option.noConfusion hkv
        · cases dump with
          | some d => exact ih d target path v h
          | none => simp at h

/-- When the SID search finds nothing, it returns exactly `(None, None)`. -/
lemma searchSidGo_fst_none :
    ∀ (fuel : Nat) (obj : PyObj) (target path : String),
      (searchSidGo fuel obj target path).1 = none →
      searchSidGo fuel obj target path = (none, none) := by
  intro fuel
  induction fuel with
  | zero =>
    intro obj target path _
    exact searchSidGo_zero obj target path
  | succ n ih =>
    intro obj target path h
    cases obj with
    | pyNone => exact searchSidGo_pyNone n target path
    | pyStr s =>
      by_cases hc : (pyStrip (pyToStr (.pyStr s)) == target) = true
      · rw [searchSidGo_pyStr, if_pos hc] at h
        simp at h
      · rw [searchSidGo_pyStr, if_neg hc]
    | pyTime t =>
      by_cases hc : (pyStrip (pyToStr (.pyTime t)) == target) = true
      · rw [searchSidGo_pyTime, if_pos hc] at h
        simp at h
      · rw [searchSidGo_pyTime, if_neg hc]
    | pyDict kvs =>
      by_cases hc : (pyStrip (pyToStr (.pyDict kvs)) == target) = true
      · rw [searchSidGo_pyDict, if_pos hc] at h
        simp at h
      · rw [searchSidGo_pyDict, if_neg hc] at h ⊢
        split
        · next r heq =>
          rw [heq] at h
          dsimp only at h
          obtain ⟨kv, hmem, hkv⟩ := List.exists_of_findSome?_eq_some heq
          dsimp only at hkv
          split at hkv
          · rw [Option.some.injEq] at hkv
            subst hkv
            simp at h
          · split at hkv
            · next htr =>
              rw [Option.some.injEq] at hkv
              subst hkv
              obtain ⟨w, hw⟩ := pyTruthyOpt_eq_true htr
              rw [hw] at h
              exact Option.noConfusion h
            · exact Option.noConfusion hkv
        · rfl
    | pyList xs =>
      by_cases hc : (pyStrip (pyToStr (.pyList xs)) == target) = true
      · rw [searchSidGo_pyList, if_pos hc] at h
        simp at h
      · rw [searchSidGo_pyList, if_neg hc] at h ⊢
        split
        · next r heq =>
          rw [heq] at h
          dsimp only at h
          obtain ⟨ix, hmem, hix⟩ := List.exists_of_findSome?_eq_some heq
          dsimp only at hix
          split at hix <;> split at hix
          all_goals
            first
              | exact Option.noConfusion hix
              | (rename_i htr
                 rw [Option.some.injEq] at hix
                 subst hix
                 obtain ⟨w, hw⟩ := pyTruthyOpt_eq_true htr
                 rw [hw] at h
                 exact Option.noConfusion h)
        · rfl
    | pyAttrs attrs dump =>
      by_cases hc : (pyStrip (pyToStr (.pyAttrs attrs dump)) == target) = true
      · rw [searchSidGo_pyAttrs, if_pos hc] at h
        simp at h
      · rw [searchSidGo_pyAttrs, if_neg hc] at h ⊢
        split
        · next r heq =>
          rw [heq] at h
          dsimp only at h
          obtain ⟨kv, hmem, hkv⟩ := List.exists_of_findSome?_eq_some heq
          dsimp only at hkv
          split at hkv
          · next htr =>
            rw [Option.some.injEq] at hkv
            subst hkv
            obtain ⟨w, hw⟩ := pyTruthyOpt_eq_true htr
            rw [hw] at h
            exact Option.noConfusion h
          · exact Option.noConfusion hkv
        · next heq =>
          rw [heq] at h
          dsimp only at h
          cases dump with
          | some d => exact ih d target path h
          | none => rfl

lemma findPhoneGo_zero (obj : PyObj) : findPhoneGo 0 obj = none := rfl

lemma findPhoneGo_pyNone (n : Nat) : findPhoneGo (n + 1) .pyNone = none := rfl

lemma findPhoneGo_pyTime (n : Nat) (t : Int) : findPhoneGo (n + 1) (.pyTime t) = none := rfl

lemma findPhoneGo_pyList (n : Nat) (xs : List PyObj) :
    findPhoneGo (n + 1) (.pyList xs) = none := rfl

lemma findPhoneGo_pyStr (n : Nat) (s : String) :
    findPhoneGo (n + 1) (.pyStr s) =
      match (if 10 ≤ (phoneSepStripped s).length && 10 ≤ (phoneCleaned s).length then
               some (PyObj.pyStr s) else none : Option PyObj) with
      | some r => some r
      | none => none := rfl

lemma findPhoneGo_pyDict (n : Nat) (kvs : List (String × PyObj)) :
    findPhoneGo (n + 1) (.pyDict kvs) =
      match (match phone_priority_keys.findSome? (fun key =>
          match kvs.find? (fun kv => strLower kv.1 == strLower key) with
          | some kv =>
            if pyTruthy kv.2 then
              match findPhoneGo n kv.2 with
              | some r => if pyTruthy r then some r else none
              | none => none
            else none
          | none => none) with
        | some r => some r
        | none =>
          kvs.findSome? (fun kv =>
            match findPhoneGo n kv.2 with
            | some r => if pyTruthy r then some r else none
            | none => none)) with
      | some r => some r
      | none => none := rfl

lemma findPhoneGo_pyAttrs (n : Nat) (attrs : List (String × PyObj)) (dump : Option PyObj) :
    findPhoneGo (n + 1) (.pyAttrs attrs dump) =
      phone_attr_keys.findSome? (fun key =>
        match pyGetattr (.pyAttrs attrs dump) key with
        | some v =>
          if pyTruthy v then
            match findPhoneGo n v with
            | some r => if pyTruthy r then some r else none
            | none => none
          else none
        | none => none) := rfl

/-- Every value the phone search returns is a string passing both
phone-shape length tests of the source. -/
lemma findPhoneGo_shape :
    ∀ (fuel : Nat) (obj : PyObj) (v : PyObj),
      findPhoneGo fuel obj = some v →
      ∃ s, v = .pyStr s ∧ 10 ≤ (phoneSepStripped s).length ∧
        10 ≤ (phoneCleaned s).length := by
  intro fuel
  induction fuel with
  | zero =>
    intro obj v h
    rw [findPhoneGo_zero] at h
    exact Option.noConfusion h
  | succ n ih =>
    intro obj v h
    cases obj with
    | pyNone => rw [findPhoneGo_pyNone] at h; exact Option.noConfusion h
    | pyTime t => rw [findPhoneGo_pyTime] at h; exact Option.noConfusion h
    | pyList xs => rw [findPhoneGo_pyList] at h; exact Option.noConfusion h
    | pyStr s =>
      rw [findPhoneGo_pyStr] at h
      split at h
      · next r heq =>
        rw [Option.some.injEq] at h
        subst h
        split at heq
        · next hc =>
          rw [Option.some.injEq] at heq
          subst heq
          rw [Bool.and_eq_true] at hc
          exact ⟨s, rfl, of_decide_eq_true hc.1, of_decide_eq_true hc.2⟩
        · exact Option.noConfusion heq
      · exact Option.noConfusion h
    | pyDict kvs =>
      rw [findPhoneGo_pyDict] at h
      split at h
      · next r heq =>
        rw [Option.some.injEq] at h
        subst h
        split at heq
        · next r2 heq2 =>
          rw [Option.some.injEq] at heq
          subst heq
          obtain ⟨key, hkmem, hk⟩ := List.exists_of_findSome?_eq_some heq2
          split at hk
          · next kv hfind2 =>
            split at hk
            · split at hk
              · next r3 heq3 =>
                split at hk
                · rw [Option.some.injEq] at hk
                  subst hk
                  exact ih kv.2 _ heq3
                · exact Option.noConfusion hk
              · exact Option.noConfusion hk
            · exact Option.noConfusion hk
          · exact Option.noConfusion hk
        · next heq2 =>
          obtain ⟨kv, hkmem, hk⟩ := List.exists_of_findSome?_eq_some heq
          split at hk
          · next r3 heq3 =>
            split at hk
            · rw [Option.some.injEq] at hk
              subst hk
              exact ih kv.2 _ heq3
            · exact Option.noConfusion hk
          · exact Option.noConfusion hk
      · exact Option.noConfusion h
    | pyAttrs attrs dump =>
      rw [findPhoneGo_pyAttrs] at h
      obtain ⟨key, hkmem, hk⟩ := List.exists_of_findSome?_eq_some h
      split at hk
      · next w hget =>
        split at hk
        · split at hk
          · next r3 heq3 =>
            split at hk
            · rw [Option.some.injEq] at hk
              subst hk
              exact ih w _ heq3
            · exact Option.noConfusion hk
          · exact Option.noConfusion hk
        · exact Option.noConfusion hk
      · exact Option.noConfusion hk

/-- Claim C1, amended: whenever `search_for_call_sid_recursive` returns a
non-`None` value, the stripped string form of that value equals the target
call SID.  The recursive phone search `find_phone_recursive`, however,
takes no target: every value it returns (and that the heuristic then
treats as the conversation's caller number) is merely a string passing the
phone-shape tests (at least ten characters outside `+ - ( )` and space,
and at least ten characters among digits and `+`); equality with the
searched-for number is checked only afterwards, by digit-normalized
comparison. -/
theorem c1_recursive_search_values :
    (∀ (obj : PyObj) (target path : String) (maxDepth currentDepth : Nat) (v : PyObj),
      (search_for_call_sid_recursive obj target path maxDepth currentDepth).1 = some v →
      pyStrip (pyToStr v) = target) ∧
    (∀ (obj : PyObj) (maxDepth depth : Nat) (v : PyObj),
      find_phone_recursive obj maxDepth depth = some v →
      ∃ s, v = .pyStr s ∧ 10 ≤ (phoneSepStripped s).length ∧
        10 ≤ (phoneCleaned s).length) := by
  constructor
  · intro obj target path maxDepth currentDepth v h
    exact searchSidGo_fst_eq (maxDepth + 1 - currentDepth) obj target path v h
  · intro obj maxDepth depth v h
    exact findPhoneGo_shape (maxDepth + 1 - depth) obj v h

/-- Counterexample to C1 as stated: searching metadata for the target
number `+18603048753`, the heuristic adopts `+15551234567` (the only
phone-shaped string present) as the conversation's caller number, a value
different from the target, because `find_phone_recursive` never compares
against the target. -/
theorem c1_counterexample :
    find_phone_recursive (.pyDict [("note", .pyStr "+15551234567")]) 3 0 =
      some (.pyStr "+15551234567") ∧
    metadata_caller_phone (.pyDict [("note", .pyStr "+15551234567")]) =
      some (.pyStr "+15551234567") ∧
    ("+15551234567" : String) ≠ "+18603048753" :=
  ⟨rfl, rfl, by decide⟩

/-- Witness for C1 on concrete inputs: a dict whose value is the target
SID, and a phone-shaped string. -/
theorem c1_witness :
    pyStrip (pyToStr (PyObj.pyStr "CA123")) = "CA123" ∧
    (∃ s, PyObj.pyStr "+15551234567" = PyObj.pyStr s ∧
      10 ≤ (phoneSepStripped s).length ∧ 10 ≤ (phoneCleaned s).length) :=
  ⟨c1_recursive_search_values.1 (.pyDict [("system__call_sid", .pyStr "CA123")])
      "CA123" "" 10 0 (.pyStr "CA123") rfl,
   c1_recursive_search_values.2 (.pyStr "+15551234567") 3 0 (.pyStr "+15551234567") rfl⟩

/-- Claim C5: a no-match outcome is signalled by `None`, not by an
exception: when no conversation passes either the SID probe or the
phone-and-timestamp fallback, the (total) search loop returns `None`, and
`search_for_call_sid_recursive` signals absence by returning exactly
`(None, None)`. -/
theorem c5_none_signals_no_match :
    (∀ (getConv : PyObj → Option PyObj) (parseIso : String → Option Int)
        (conversations : List PyObj) (target : String) (phone : Option String)
        (callTs : Option Int),
      (∀ conv ∈ conversations,
        checkConversation getConv parseIso target phone callTs conv = none) →
      find_elevenlabs_conversation_by_call_sid getConv parseIso conversations target
        phone callTs = none) ∧
    (∀ (obj : PyObj) (target path : String) (maxDepth currentDepth : Nat),
      (search_for_call_sid_recursive obj target path maxDepth currentDepth).1 = none →
      search_for_call_sid_recursive obj target path maxDepth currentDepth = (none, none)) := by
  constructor
  · intro getConv parseIso convs target phone callTs hall
    unfold find_elevenlabs_conversation_by_call_sid
    rw [List.findSome?_eq_none_iff]
    exact hall
  · intro obj target path maxDepth currentDepth h
    exact searchSidGo_fst_none (maxDepth + 1 - currentDepth) obj target path h

/-- Witness for C5: a conversation without the SID and with no phone
context yields `None`, and a non-matching object searches to
`(None, None)`. -/
theorem c5_witness :
    find_elevenlabs_conversation_by_call_sid (fun _ => none) (fun _ => none)
      [.pyAttrs [("conversation_id", .pyStr "conv1")] none] "CA123" none none = none ∧
    search_for_call_sid_recursive (.pyDict [("note", .pyStr "nope")]) "CA123" "" 10 0 =
      (none, none) :=
  ⟨c5_none_signals_no_match.1 (fun _ => none) (fun _ => none)
      [.pyAttrs [("conversation_id", .pyStr "conv1")] none] "CA123" none none
      (by
        intro conv hmem
        rw [List.mem_singleton] at hmem
        subst hmem
        rfl),
   c5_none_signals_no_match.2 (.pyDict [("note", .pyStr "nope")]) "CA123" "" 10 0 rfl⟩

/-- Anatomy of a successful phone-and-timestamp fallback: it requires a
supplied phone and timestamp, a phone match, and a parsed conversation
timestamp within 300 seconds of the call timestamp. -/
lemma fallbackCheck_some (parseIso : String → Option Int) (phone : Option String)
    (callTs : Option Int) (convId fc : PyObj) (r : MatchResult)
    (h : fallbackCheck parseIso phone callTs convId fc = some r) :
    ∃ T t, callTs = some T ∧ convParsedTimestamp parseIso fc = some t ∧
      r.conversation = fc ∧ r.match_method = "phone_and_timestamp" ∧
      r.time_diff_seconds = some (t - T).natAbs ∧ (t - T).natAbs < 300 := by
  unfold fallbackCheck at h
  cases phone with
  | none => exact Option.noConfusion h
  | some p =>
    cases callTs with
    | none => exact Option.noConfusion h
    | some ts =>
      dsimp only at h
      split at h
      · exact Option.noConfusion h
      · split at h
        · next cp hcp =>
          split at h
          · split at h
            · split at h
              · next t ht =>
                split at h
                · next hlt =>
                  rw [Option.some.injEq] at h
                  subst h
                  exact ⟨ts, t, rfl, ht, rfl, rfl, rfl, hlt⟩
                · exact Option.noConfusion h
              · exact Option.noConfusion h
            · exact Option.noConfusion h
          · exact Option.noConfusion h
        · exact Option.noConfusion h

/-- Claim C2: a conversation is returned with match method
`phone_and_timestamp` only when the absolute difference between the
conversation's (extracted and parsed) timestamp and the Twilio call's
timestamp is less than 300 seconds. -/
theorem c2_fallback_within_five_minutes :
    ∀ (getConv : PyObj → Option PyObj) (parseIso : String → Option Int)
      (conversations : List PyObj) (target : String) (phone : Option String)
      (callTs : Option Int) (r : MatchResult),
      find_elevenlabs_conversation_by_call_sid getConv parseIso conversations target
        phone callTs = some r →
      r.match_method = "phone_and_timestamp" →
      ∃ T t, callTs = some T ∧ convParsedTimestamp parseIso r.conversation = some t ∧
        r.time_diff_seconds = some (t - T).natAbs ∧ (t - T).natAbs < 300 := by
  intro getConv parseIso convs target phone callTs r hfind hmethod
  unfold find_elevenlabs_conversation_by_call_sid at hfind
  obtain ⟨conv, hcmem, hconv⟩ := List.exists_of_findSome?_eq_some hfind
  unfold checkConversation at hconv
  dsimp only at hconv
  split at hconv
  · exact Option.noConfusion hconv
  · split at hconv
    · rw [Option.some.injEq] at hconv
      subst hconv
      simp at hmethod
    · obtain ⟨T, t, hT, ht, hcv, _, htd, hlt⟩ :=
        fallbackCheck_some parseIso phone callTs _ _ r hconv
      refine ⟨T, t, hT, ?_, htd, hlt⟩
      rw [hcv]
      exact ht

/-- Witness for C2: a conversation whose `created_at` is 100 seconds from
the call timestamp is matched by the fallback, within the window. -/
theorem c2_witness :
    ∃ T t, (some (1100 : Int) = some T) ∧
      convParsedTimestamp (fun _ => none)
        (.pyAttrs [("conversation_id", .pyStr "conv2"),
                   ("caller_phone_number", .pyStr "+18603048753"),
                   ("created_at", .pyTime 1000)] none) = some t ∧
      (MatchResult.mk (.pyStr "conv2")
        (.pyAttrs [("conversation_id", .pyStr "conv2"),
                   ("caller_phone_number", .pyStr "+18603048753"),
                   ("created_at", .pyTime 1000)] none)
        "phone_and_timestamp" none none (some 100)).time_diff_seconds =
        some (t - T).natAbs ∧ (t - T).natAbs < 300 := by
  have h := c2_fallback_within_five_minutes (fun _ => none) (fun _ => none)
    [.pyAttrs [("conversation_id", .pyStr "conv2"),
               ("caller_phone_number", .pyStr "+18603048753"),
               ("created_at", .pyTime 1000)] none]
    "CAxx" (some "+18603048753") (some 1100)
    (MatchResult.mk (.pyStr "conv2")
      (.pyAttrs [("conversation_id", .pyStr "conv2"),
                 ("caller_phone_number", .pyStr "+18603048753"),
                 ("created_at", .pyTime 1000)] none)
      "phone_and_timestamp" none none (some 100)) rfl rfl
  exact h

/-- Claim C4: for every examined conversation the call-SID probe (known
path, then full recursive search) runs first: a truthy SID find is
returned with match method `twilio_call_sid` carrying the found value and
path, and a fallback result can only arise when the SID probe found
nothing truthy. -/
theorem c4_sid_probe_before_fallback :
    ∀ (getConv : PyObj → Option PyObj) (parseIso : String → Option Int)
      (target : String) (phone : Option String) (callTs : Option Int)
      (conv : PyObj) (r : MatchResult),
      checkConversation getConv parseIso target phone callTs conv = some r →
      (pyTruthyOpt (sidCheckOf getConv target conv).1 = true →
        r.match_method = "twilio_call_sid" ∧
        r.twilio_call_sid = (sidCheckOf getConv target conv).1 ∧
        r.found_path = (sidCheckOf getConv target conv).2) ∧
      (r.match_method = "phone_and_timestamp" →
        pyTruthyOpt (sidCheckOf getConv target conv).1 = false) := by
  intro getConv parseIso target phone callTs conv r h
  unfold checkConversation at h
  dsimp only at h
  split at h
  · exact Option.noConfusion h
  · split at h
    · next htr =>
      rw [Option.some.injEq] at h
      subst h
      refine ⟨fun _ => ⟨rfl, rfl, rfl⟩, fun hm => ?_⟩
      simp at hm
    · next hntr =>
      refine ⟨fun htr => absurd htr hntr, fun _ => ?_⟩
      cases hb : pyTruthyOpt (sidCheckOf getConv target conv).1 with
      | false => rfl
      | true => exact absurd hb hntr

/-- Witness for C4: a conversation carrying the target SID at the known
path is returned as a `twilio_call_sid` match with the known path. -/
theorem c4_witness :
    (MatchResult.mk (.pyStr "conv1")
        (.pyAttrs [("conversation_id", .pyStr "conv1"),
                   ("conversation_initiation_client_data",
                     .pyDict [("dynamic_variables",
                       .pyDict [("system__call_sid", .pyStr "CA123")])])] none)
        "twilio_call_sid" (some (.pyStr "CA123")) (some knownSidPathStr)
        none).match_method = "twilio_call_sid" ∧
      (MatchResult.mk (.pyStr "conv1")
        (.pyAttrs [("conversation_id", .pyStr "conv1"),
                   ("conversation_initiation_client_data",
                     .pyDict [("dynamic_variables",
                       .pyDict [("system__call_sid", .pyStr "CA123")])])] none)
        "twilio_call_sid" (some (.pyStr "CA123")) (some knownSidPathStr)
        none).twilio_call_sid =
        (sidCheckOf (fun _ => none) "CA123"
          (.pyAttrs [("conversation_id", .pyStr "conv1"),
                     ("conversation_initiation_client_data",
                       .pyDict [("dynamic_variables",
                         .pyDict [("system__call_sid", .pyStr "CA123")])])] none)).1 ∧
      (MatchResult.mk (.pyStr "conv1")
        (.pyAttrs [("conversation_id", .pyStr "conv1"),
                   ("conversation_initiation_client_data",
                     .pyDict [("dynamic_variables",
                       .pyDict [("system__call_sid", .pyStr "CA123")])])] none)
        "twilio_call_sid" (some (.pyStr "CA123")) (some knownSidPathStr)
        none).found_path =
        (sidCheckOf (fun _ => none) "CA123"
          (.pyAttrs [("conversation_id", .pyStr "conv1"),
                     ("conversation_initiation_client_data",
                       .pyDict [("dynamic_variables",
                         .pyDict [("system__call_sid", .pyStr "CA123")])])] none)).2 :=
  (c4_sid_probe_before_fallback (fun _ => none) (fun _ => none) "CA123" none none
    (.pyAttrs [("conversation_id", .pyStr "conv1"),
               ("conversation_initiation_client_data",
                 .pyDict [("dynamic_variables",
                   .pyDict [("system__call_sid", .pyStr "CA123")])])] none)
    (MatchResult.mk (.pyStr "conv1")
      (.pyAttrs [("conversation_id", .pyStr "conv1"),
                 ("conversation_initiation_client_data",
                   .pyDict [("dynamic_variables",
                     .pyDict [("system__call_sid", .pyStr "CA123")])])] none)
      "twilio_call_sid" (some (.pyStr "CA123")) (some knownSidPathStr) none)
    rfl).1 (by rfl)
